import Mathlib

/-!
Shallow embedding of `src/main.py` (NX-OS automation API): the pydantic data
model, the mocked pre-check, the pure configuration renderer, the git-backed
audit store (`GitOpsManager`) and the FastAPI endpoints, together with the
theorems settling the specification's claims about them.

Python integers are unbounded, so integer request fields become `Int`;
`Optional[T]` becomes `Option T`; Python truthiness tests (`if request.vlan:`)
are modelled explicitly (`none` and `0` / the empty string are falsy).
-/

namespace NXOS

/-- `PortConfigRequest` (src/main.py lines 32-39): a plain pydantic model.  The
class declares only field types — no `Field` constraints and no validators. -/
structure PortConfigRequest where
  device : String
  interface : String
  vlan : Option Int := none
  description : Option String := none
  mode : String := "access"
  vni : Option Int := none
  vrf : Option String := none
deriving DecidableEq

/-- `PreCheckResponse` (src/main.py lines 41-48).  `current_config` is an
opaque JSON object in the source; a key/value list keeps it faithful enough. -/
structure PreCheckResponse where
  port_exists : Bool
  admin_status : String
  oper_status : String
  current_config : List (String × String)
  mac_addresses : List String
  recommendations : List String
  is_safe_to_configure : Bool
deriving DecidableEq

/-- `ConfigurationResponse` (src/main.py lines 50-55); the timestamp is the
model clock value at response time. -/
structure ConfigurationResponse where
  success : Bool
  commit_hash : String
  timestamp : Nat
  applied_config : String
  message : String
deriving DecidableEq

/-- `NXOSOperations.pre_check_port` (src/main.py lines 162-192): the body is a
single `return` of a hard-coded `PreCheckResponse`; the `device` and
`interface` arguments are never read. -/
def pre_check_port (_device _interface : String) : PreCheckResponse :=
  { port_exists := true
    admin_status := "up"
    oper_status := "down"
    current_config :=
      [("description", "Uplink to Core"), ("vlan", "10"), ("mode", "access"),
       ("speed", "auto"), ("duplex", "auto")]
    mac_addresses := []
    recommendations :=
      ["Port is administratively up but operationally down",
       "No MAC addresses learned - safe to reconfigure",
       "Consider checking physical connectivity"]
    is_safe_to_configure := true }

/-- Python's `pat in s` on strings: contiguous substring containment, true for
the empty pattern. -/
def strContains (s pat : String) : Bool :=
  s.data.tails.any (fun t => pat.data.isPrefixOf t)

/-- Worker for `pyReplace`: replace non-overlapping occurrences of `old` left
to right; the counter skips the remaining characters of a just-matched
occurrence (kept structural so the kernel can evaluate it). -/
def replaceAux (old new : List Char) : List Char → Nat → List Char
  | [], _ => []
  | c :: rest, 0 =>
    if old.isPrefixOf (c :: rest) then new ++ replaceAux old new rest (old.length - 1)
    else c :: replaceAux old new rest 0
  | _ :: rest, k + 1 => replaceAux old new rest k

/-- Python's `s.replace(old, new)`: replaces non-overlapping occurrences left
to right. -/
def pyReplace (s old new : String) : String :=
  String.mk (replaceAux old.data new.data s.data 0)

/-- `NXOSOperations.generate_config` (src/main.py lines 194-224), as the list
of command lines before the final `"\n".join`.  Each `if request.field:` is a
Python truthiness test: `None`, `0` and `""` are falsy. -/
def config_lines (request : PortConfigRequest) : List String :=
  ["interface " ++ request.interface]
  ++ (match request.description with
      | some d => if d.isEmpty then [] else ["  description " ++ d]
      | none => [])
  ++ ["  switchport"]
  ++ (if request.mode == "access" then
        ["  switchport mode access"]
        ++ (match request.vlan with
            | some v => if v == 0 then [] else ["  switchport access vlan " ++ toString v]
            | none => [])
      else if request.mode == "trunk" then
        ["  switchport mode trunk"]
        ++ (match request.vlan with
            | some v => if v == 0 then [] else ["  switchport trunk allowed vlan " ++ toString v]
            | none => [])
      else [])
  ++ (match request.vni with
      | some n => if n == 0 then [] else ["  vxlan", "    vni " ++ toString n]
      | none => [])
  ++ (match request.vrf with
      | some s => if s.isEmpty then [] else ["  vrf member " ++ s]
      | none => [])
  ++ ["  no shutdown"]

/-- `NXOSOperations.generate_config` (src/main.py lines 194-224): the rendered
configuration text, `"\n".join(config_lines)`. -/
def generate_config (request : PortConfigRequest) : String :=
  String.intercalate "\n" (config_lines request)

/-- `NXOSOperations.apply_config` (src/main.py lines 226-237): the device
interaction is simulated; after a sleep the function returns `True`
unconditionally. -/
def apply_config (_device _config : String) : Bool := true

/-- Value-level request validation at the API boundary (src/main.py lines
32-39): `PortConfigRequest` declares no `Field` bounds and no validators, so
pydantic accepts every request of the right shape (the shape itself is the
type of `PortConfigRequest`); no range or enum check exists. -/
def request_accepted (_request : PortConfigRequest) : Bool := true

/-! ## Git store (`GitOpsManager`, src/main.py lines 78-155)

The store is a linear git history.  A `Commit` keeps the full hex hash git
assigned, the commit message, the snapshot of tracked files, the author and
the commit time; the `device`/`intf` fields mirror the device and interface
recorded in the metadata JSON written alongside the config file (src/main.py
lines 107-118).  Git's content hashing is abstracted as a function
`H : Nat -> String` giving the full hex hash of the commit at position `n` of
the history: two commits of one repository have distinct parent chains, hence
distinct object contents, so SHA-1 collision-resistance enters the theorems as
the hypothesis `Function.Injective H`. -/

/-- One commit of the configuration repository. -/
structure Commit where
  hash : String
  message : String
  files : List (String × String)
  author : String
  time : Nat
  device : String
  intf : String
deriving DecidableEq

/-- The repository: its commits oldest-first and the checked-out working
tree (path / contents pairs). -/
structure GitState where
  commits : List Commit
  workingTree : List (String × String)
deriving DecidableEq

/-- Write one file into a tree: replace the entry at `path` or append it. -/
def setFile : List (String × String) → String → String → List (String × String)
  | [], path, contents => [(path, contents)]
  | (p, c) :: rest, path, contents =>
    if p == path then (p, contents) :: rest else (p, c) :: setFile rest path contents

/-- Read one file of a tree. -/
def getFile (tree : List (String × String)) (path : String) : Option String :=
  (tree.find? (fun e => e.1 == path)).map (fun e => e.2)

/-- The metadata JSON `commit_config` writes next to the config file
(src/main.py lines 107-118); the exact `json.dump` layout is irrelevant to
every claim, so the rendering simply carries all five fields. -/
def metadata_json (device intf : String) (time : Nat) (user config : String) : String :=
  "\x7b\"device\": \"" ++ device ++ "\", \"interface\": \"" ++ intf ++
  "\", \"timestamp\": \"" ++ toString time ++ "\", \"user\": \"" ++ user ++
  "\", \"config\": \"" ++ config ++ "\"\x7d"

/-- `GitOpsManager.ensure_repo` (src/main.py lines 83-92): a fresh repository
holds one initial commit with a README. -/
def initial_tree : List (String × String) :=
  [("README.md", "# Network Configuration Repository\n")]

/-- The repository state right after `ensure_repo` on an empty directory. -/
def init_state (H : Nat → String) : GitState :=
  { commits := [{ hash := H 0, message := "Initial commit", files := initial_tree,
                  author := "automation", time := 0, device := "", intf := "" }],
    workingTree := initial_tree }

/-- `GitOpsManager.commit_config` (src/main.py lines 94-124): writes the
rendered config and its metadata JSON under `devices/<device>/`, commits both,
and returns `commit.hexsha[:7]` — the first seven characters of the full hex
hash.  There is no check for short-hash collisions and no retry. -/
def commit_config (H : Nat → String) (st : GitState) (device intf config : String)
    (user : String) (now : Nat) : String × GitState :=
  let base := "devices/" ++ device ++ "/" ++ pyReplace intf "/" "_"
  let tree := setFile (setFile st.workingTree (base ++ ".conf") config)
      (base ++ ".json") (metadata_json device intf now user config)
  let full := H st.commits.length
  let c : Commit :=
    { hash := full, message := "Configure " ++ device ++ " " ++ intf,
      files := tree, author := user, time := now, device := device, intf := intf }
  (full.take 7, { commits := st.commits ++ [c], workingTree := tree })

/-- One history entry as `get_history` returns it (src/main.py lines
132-137): short hash, message, timestamp and author — note there is no device
field. -/
structure HistoryEntry where
  commit_hash : String
  message : String
  timestamp : Nat
  author : String
deriving DecidableEq

/-- The history entry built for a commit (src/main.py lines 132-137). -/
def Commit.toEntry (c : Commit) : HistoryEntry :=
  { commit_hash := c.hash.take 7, message := c.message,
    timestamp := c.time, author := c.author }

/-- `GitOpsManager.get_history` (src/main.py lines 126-145):
`list(repo.iter_commits())[:limit]` takes the first `limit` commits
newest-first (the slice happens BEFORE the device filter), then keeps a commit
when no device was given or when `device in commit.message` — Python substring
containment on the message. -/
def get_history (st : GitState) (device : Option String) (limit : Nat) :
    List HistoryEntry :=
  (st.commits.reverse.take limit).filterMap (fun c =>
    match device with
    | some d => if strContains c.message d then some c.toEntry else none
    | none => some c.toEntry)

/-- `GitOpsManager.rollback` (src/main.py lines 147-155): `git checkout <rev>`
resolves `rev` against the object store — a full hash or an unambiguous hash
prefix; on success the working tree becomes the target commit's snapshot
(detached HEAD) and NO new commit is created; a nonexistent or ambiguous rev
makes git raise, which the `except` clause turns into `False`. -/
def rollback (st : GitState) (commit_hash : String) : Bool × GitState :=
  match st.commits.filter (fun c => commit_hash.data.isPrefixOf c.hash.data) with
  | [c] => (true, { st with workingTree := c.files })
  | _ => (false, st)

/-! ## API endpoints (src/main.py lines 257-333) -/

/-- The outcome of the configure endpoint: an `HTTPException` with status code
and detail, or a 200 response. -/
inductive ConfigureOutcome where
  | httpError (status : Nat) (detail : String)
  | ok (resp : ConfigurationResponse)
deriving DecidableEq

/-- The side effects `configure_port` performs, in order. -/
inductive Event where
  | commitEv (short_hash : String)
  | applyEv (device : String)
deriving DecidableEq

/-- `configure_port` (src/main.py lines 266-307).  The two device-world
interactions enter as arguments: `pre_check` is the value
`nxos_ops.pre_check_port` returned (in this source a constant, see
`pre_check_port`) and `apply_ok` the value `nxos_ops.apply_config` returned
(in this source always `true`, see `apply_config`).  Returns the HTTP outcome,
the git state after the call and the ordered trace of commit/apply actions
performed.  The inner `HTTPException`s reach the caller unchanged through
`except HTTPException: raise`. -/
def configure_port (H : Nat → String) (pre_check : PreCheckResponse)
    (apply_ok : Bool) (st : GitState) (request : PortConfigRequest) (now : Nat) :
    ConfigureOutcome × GitState × List Event :=
  if !pre_check.is_safe_to_configure then
    (.httpError 400 "Port is not safe to configure. Check pre-check results.", st, [])
  else
    let config := generate_config request
    let (commit_hash, st1) :=
      commit_config H st request.device request.interface config "api_user" now
    let trace := [Event.commitEv commit_hash, Event.applyEv request.device]
    if !apply_ok then
      (.httpError 500 "Failed to apply configuration", st1, trace)
    else
      (.ok { success := true, commit_hash := commit_hash, timestamp := now,
             applied_config := config,
             message := "Successfully configured " ++ request.interface
               ++ " on " ++ request.device },
       st1, trace)

/-- The `/api/v1/port/configure` endpoint as wired in the source:
`configure_port` with the pre-check taken from `nxos_ops.pre_check_port` and
the apply outcome from `nxos_ops.apply_config`. -/
def configure_port_endpoint (H : Nat → String) (st : GitState)
    (request : PortConfigRequest) (now : Nat) :
    ConfigureOutcome × GitState × List Event :=
  configure_port H (pre_check_port request.device request.interface)
    (apply_config request.device (generate_config request)) st request now

/-- The outcome of the rollback endpoint. -/
inductive RollbackOutcome where
  | httpError (status : Nat) (detail : String)
  | ok (message : String) (commit_hash : String)
deriving DecidableEq

/-- `rollback_config` (src/main.py lines 318-333): a failed
`git_manager.rollback` becomes an HTTP 500 ("Rollback failed", re-wrapped by
the bare `except Exception` which keeps the 500 status); success answers with
a message naming the commit.  No 404/NotFound is ever produced. -/
def rollback_config (st : GitState) (commit_hash : String) :
    RollbackOutcome × GitState :=
  let r := rollback st commit_hash
  if !r.1 then (.httpError 500 "Rollback failed", r.2)
  else (.ok ("Successfully rolled back to commit " ++ commit_hash) commit_hash, r.2)

/-- A request to `commit_config`, for stating runs of several commits. -/
structure CommitRequest where
  device : String
  intf : String
  config : String
  user : String
  now : Nat
deriving DecidableEq

/-- A sequence of `commit_config` calls against one repository: the returned
short commit identifiers and the final state. -/
def run_commits (H : Nat → String) (st : GitState) :
    List CommitRequest → List String × GitState
  | [] => ([], st)
  | r :: rs =>
    let p := commit_config H st r.device r.intf r.config r.user r.now
    let q := run_commits H p.2 rs
    (p.1 :: q.1, q.2)

/-! ## Specification-side definitions (for refinement comparison)

These two definitions follow the spec's words, not the source; each theorem
comparing them with the source-derived functions says so. -/

/-- The spec's safety policy (section 4.2), to compare with the verdict the
code returns: unsafe when the port does not exist; unsafe when MAC addresses
are learned and the request would change mode or VLAN; safe otherwise. -/
def safety_policy_spec (port_exists : Bool) (learned_macs : List String)
    (change_mode_or_vlan : Bool) : Bool :=
  port_exists && !(!learned_macs.isEmpty && change_mode_or_vlan)

/-- The spec's history contract (sections 4.3 and 8), to compare with
`get_history`: the records of the given device's own commits (all commits when
no device is given), most recent first, at most `limit` of them.  The device a
commit belongs to is the one recorded at commit time. -/
def history_spec (st : GitState) (device : Option String) (limit : Nat) :
    List HistoryEntry :=
  ((st.commits.filter (fun c =>
      match device with
      | some d => c.device == d
      | none => true)).reverse.take limit).map Commit.toEntry

/-! ## Concrete values used in witnesses and counterexamples -/

/-- The section-8 end-to-end example request. -/
def sample_request_access : PortConfigRequest :=
  { device := "leaf-01", interface := "Eth1/1", vlan := some 10,
    description := some "Server Link", mode := "access", vni := none, vrf := none }

/-- A request every one of whose constrained values is out of range: vlan
above 4094, mode outside the access/trunk enum, negative vni. -/
def bad_request : PortConfigRequest :=
  { device := "leaf-01", interface := "Eth1/1", vlan := some 5000,
    description := none, mode := "hybrid", vni := some (-3), vrf := none }

/-- A pre-check result with a learned MAC address and an unsafe verdict (the
section-8 rejection scenario). -/
def unsafe_precheck : PreCheckResponse :=
  { port_exists := true, admin_status := "up", oper_status := "up",
    current_config := [], mac_addresses := ["aa:bb:cc:dd:ee:ff"],
    recommendations := [], is_safe_to_configure := false }

/-- An admissible (injective) hash assignment whose values all share their
first seven characters: full hashes are pairwise distinct, truncated
identifiers are not. -/
def H_collide : Nat → String :=
  fun n => "aaaaaaa" ++ String.mk (List.replicate n 'b')

/-- A hash assignment giving visibly distinct 7-character hashes to the first
few commits ('hhhhhhh', 'iiiiiii', ...). -/
def H_distinct : Nat → String :=
  fun n => String.mk (List.replicate 7 (Char.ofNat (104 + n)))

/-- Two byte-identical commit requests for the same device and interface. -/
def collide_reqs : List CommitRequest :=
  [{ device := "leaf-01", intf := "Eth1/1", config := "c1", user := "api_user", now := 1 },
   { device := "leaf-01", intf := "Eth1/1", config := "c2", user := "api_user", now := 2 }]

/-- The repository after one committed change for device `leaf-11`. -/
def leaf11_state : GitState :=
  (commit_config H_distinct (init_state H_distinct) "leaf-11" "Eth1/1" "cfg" "api_user" 1).2

/-! ## Helper lemmas -/

theorem H_collide_injective : Function.Injective H_collide := by
  intro a b h
  have h2 : (H_collide a).length = (H_collide b).length := congrArg String.length h
  simpa [H_collide, String.length_append, String.length] using h2

/-- The hashes a run of `commit_config` calls assigns, and the identifiers it
returns: positions `st.commits.length, ...` of the history get hashes
`H` of those positions, and the API returns their 7-character truncations. -/
theorem run_commits_hashes (H : Nat → String) (reqs : List CommitRequest) :
    ∀ st : GitState,
      (run_commits H st reqs).2.commits.map Commit.hash
          = st.commits.map Commit.hash
            ++ (List.range' st.commits.length reqs.length).map H
      ∧ (run_commits H st reqs).1
          = ((List.range' st.commits.length reqs.length).map H).map
              (fun s => s.take 7) := by
  induction reqs with
  | nil => intro st; simp [run_commits]
  | cons r rs ih =>
    intro st
    obtain ⟨h1, h2⟩ := ih (commit_config H st r.device r.intf r.config r.user r.now).2
    simp only [run_commits]
    constructor
    · rw [h1]; simp [commit_config, List.range'_succ]
    · rw [h2]; simp [commit_config, List.range'_succ]

/-- `filterMap` with a boolean guard is filter-then-map. -/
theorem filterMap_guard {α β : Type} (p : α → Bool) (f : α → β) :
    ∀ l : List α,
      l.filterMap (fun c => if p c then some (f c) else none)
        = (l.filter p).map f := by
  intro l
  induction l with
  | nil => rfl
  | cons c rest ih =>
    by_cases h : p c <;> simp [List.filterMap_cons, List.filter_cons, h, ih]

/-! ## Claims -/

/-- C1: the pre-check safety verdict follows the stated policy: for every
pre-check result the code produces, `is_safe_to_configure` equals the spec's
policy (`safety_policy_spec`) applied to the returned `port_exists` and
`mac_addresses` fields, whatever mode/VLAN change the request would make — in
particular a result with `port_exists = false`, or one with learned MACs and a
mode/VLAN change, would be unsafe, and the result actually produced (port
exists, no learned MACs) is safe. -/
theorem C1_precheck_verdict_follows_policy (device intf : String)
    (change_mode_or_vlan : Bool) :
    (pre_check_port device intf).is_safe_to_configure
      = safety_policy_spec (pre_check_port device intf).port_exists
          (pre_check_port device intf).mac_addresses change_mode_or_vlan := rfl

/-- C2: a change request whose pre-check verdict is unsafe is answered with a
user-facing 400 error, the git state is unchanged (no audit record committed)
and the action trace is empty (no apply attempted). -/
theorem C2_unsafe_rejected (H : Nat → String) (pc : PreCheckResponse)
    (apply_ok : Bool) (st : GitState) (request : PortConfigRequest) (now : Nat)
    (h : pc.is_safe_to_configure = false) :
    (configure_port H pc apply_ok st request now).1
        = ConfigureOutcome.httpError 400
            "Port is not safe to configure. Check pre-check results."
    ∧ (configure_port H pc apply_ok st request now).2.1 = st
    ∧ (configure_port H pc apply_ok st request now).2.2 = ([] : List Event) := by
  simp [configure_port, h]

/-- Witness for C2: the section-8 rejection scenario — the sample request with
a pre-check reporting a learned MAC address is rejected with no commit and no
apply. -/
theorem C2_unsafe_rejected_witness :
    (configure_port H_distinct unsafe_precheck true (init_state H_distinct)
          sample_request_access 1).1
        = ConfigureOutcome.httpError 400
            "Port is not safe to configure. Check pre-check results."
    ∧ (configure_port H_distinct unsafe_precheck true (init_state H_distinct)
          sample_request_access 1).2.1 = init_state H_distinct
    ∧ (configure_port H_distinct unsafe_precheck true (init_state H_distinct)
          sample_request_access 1).2.2 = ([] : List Event) :=
  C2_unsafe_rejected H_distinct unsafe_precheck true (init_state H_distinct)
    sample_request_access 1 rfl

/-- C3: in every configure execution the action trace is either empty (the
request was rejected, state unchanged) or exactly commit-then-apply, so the
audit commit happens strictly before any apply is attempted; and when the
pre-check passed but the apply failed, the outcome is the 500 failure answer
while the state still holds the just-made commit — exactly one record appended,
no compensating rollback. -/
theorem C3_commit_strictly_before_apply (H : Nat → String)
    (pc : PreCheckResponse) (apply_ok : Bool) (st : GitState)
    (request : PortConfigRequest) (now : Nat) :
    ((configure_port H pc apply_ok st request now).2.2 = ([] : List Event)
        ∧ (configure_port H pc apply_ok st request now).2.1 = st
      ∨ (configure_port H pc apply_ok st request now).2.2
          = [Event.commitEv (commit_config H st request.device request.interface
                (generate_config request) "api_user" now).1,
             Event.applyEv request.device])
    ∧ (pc.is_safe_to_configure = true → apply_ok = false →
        (configure_port H pc apply_ok st request now).1
            = ConfigureOutcome.httpError 500 "Failed to apply configuration"
        ∧ (configure_port H pc apply_ok st request now).2.1
            = (commit_config H st request.device request.interface
                (generate_config request) "api_user" now).2
        ∧ ∃ c, (configure_port H pc apply_ok st request now).2.1.commits
            = st.commits ++ [c]) := by
  constructor
  · cases hpc : pc.is_safe_to_configure
    · exact Or.inl (by simp [configure_port, hpc])
    · exact Or.inr (by cases apply_ok <;> simp [configure_port, hpc])
  · intro hpc hap
    have hstate : (configure_port H pc apply_ok st request now).2.1
        = (commit_config H st request.device request.interface
            (generate_config request) "api_user" now).2 := by
      simp [configure_port, hpc, hap]
    refine ⟨by simp [configure_port, hpc, hap], hstate, ?_⟩
    rw [hstate]
    exact ⟨_, rfl⟩

/-- Witness for C3: the section-8 sample request with a passing pre-check and
a failing apply ends in the 500 failure answer with the commit still in
history. -/
theorem C3_commit_strictly_before_apply_witness :
    ((configure_port H_distinct (pre_check_port "leaf-01" "Eth1/1") false
          (init_state H_distinct) sample_request_access 1).2.2 = ([] : List Event)
        ∧ (configure_port H_distinct (pre_check_port "leaf-01" "Eth1/1") false
              (init_state H_distinct) sample_request_access 1).2.1
            = init_state H_distinct
      ∨ (configure_port H_distinct (pre_check_port "leaf-01" "Eth1/1") false
            (init_state H_distinct) sample_request_access 1).2.2
          = [Event.commitEv (commit_config H_distinct (init_state H_distinct)
                sample_request_access.device sample_request_access.interface
                (generate_config sample_request_access) "api_user" 1).1,
             Event.applyEv sample_request_access.device])
    ∧ ((pre_check_port "leaf-01" "Eth1/1").is_safe_to_configure = true →
        false = false →
        (configure_port H_distinct (pre_check_port "leaf-01" "Eth1/1") false
              (init_state H_distinct) sample_request_access 1).1
            = ConfigureOutcome.httpError 500 "Failed to apply configuration"
        ∧ (configure_port H_distinct (pre_check_port "leaf-01" "Eth1/1") false
              (init_state H_distinct) sample_request_access 1).2.1
            = (commit_config H_distinct (init_state H_distinct)
                sample_request_access.device sample_request_access.interface
                (generate_config sample_request_access) "api_user" 1).2
        ∧ ∃ c, (configure_port H_distinct (pre_check_port "leaf-01" "Eth1/1")
              false (init_state H_distinct) sample_request_access 1).2.1.commits
            = (init_state H_distinct).commits ++ [c]) :=
  C3_commit_strictly_before_apply H_distinct (pre_check_port "leaf-01" "Eth1/1")
    false (init_state H_distinct) sample_request_access 1

/-- C4 (amended): under hash collision-resistance (`H` injective on chain
positions — distinct commits have distinct parent chains), the FULL commit
hashes of any run are pairwise distinct; the identifiers the API returns,
however, are only the first seven characters of those hashes
(`commit.hexsha[:7]`, with no collision retry), so they are pairwise distinct
only when no two full hashes share a 7-character prefix. -/
theorem C4_full_hashes_unique_ids_truncated (H : Nat → String)
    (hinj : Function.Injective H) (reqs : List CommitRequest) :
    ((run_commits H (init_state H) reqs).2.commits.map Commit.hash).Nodup
    ∧ (run_commits H (init_state H) reqs).1
        = ((List.range' 1 reqs.length).map H).map (fun s => s.take 7) := by
  obtain ⟨h1, h2⟩ := run_commits_hashes H reqs (init_state H)
  have hlen : (init_state H).commits.length = 1 := rfl
  rw [hlen] at h1 h2
  refine ⟨?_, h2⟩
  rw [h1]
  have hini : (init_state H).commits.map Commit.hash = [H 0] := rfl
  rw [hini, List.singleton_append]
  have hr : H 0 :: (List.range' 1 reqs.length).map H
      = (List.range (reqs.length + 1)).map H := by
    rw [List.range_eq_range', List.range'_succ]
    rfl
  rw [hr]
  exact (List.nodup_range _).map hinj

/-- Witness for C4: with the admissible hash assignment `H_collide`, the full
hashes of the two byte-identical commits are pairwise distinct and the
returned identifiers are their 7-character truncations. -/
theorem C4_full_hashes_unique_ids_truncated_witness :
    ((run_commits H_collide (init_state H_collide) collide_reqs).2.commits.map
        Commit.hash).Nodup
    ∧ (run_commits H_collide (init_state H_collide) collide_reqs).1
        = ((List.range' 1 collide_reqs.length).map H_collide).map
            (fun s => s.take 7) :=
  C4_full_hashes_unique_ids_truncated H_collide H_collide_injective collide_reqs

/-- Counterexample for C4 as stated: `H_collide` is injective — so it is an
admissible assignment of pairwise-distinct full hashes — yet the run of two
commits returns the identifier "aaaaaaa" twice: the returned (truncated)
commit identifiers are NOT pairwise distinct. -/
theorem C4_counterexample :
    Function.Injective H_collide
    ∧ ¬ ((run_commits H_collide (init_state H_collide) collide_reqs).1.Nodup)
    ∧ (run_commits H_collide (init_state H_collide) collide_reqs).1
        = ["aaaaaaa", "aaaaaaa"] :=
  ⟨H_collide_injective, by decide, by decide⟩

/-- C5 (amended): `rollback(commit_id)` is `git checkout`: it succeeds exactly
when `commit_id` resolves, as a hash prefix, to precisely one commit of the
store; success makes the working tree — the "current" state — byte-identical
to the target commit's snapshot; NO new record is produced (the commit list is
unchanged in every case, so prior records stay unmodified); and failure —
including the not-found case — is surfaced by the endpoint as a generic HTTP
500, never as NotFound. -/
theorem C5_rollback_is_checkout (st : GitState) (cid : String) :
    ((rollback st cid).1 = true
        ↔ (st.commits.filter (fun c => cid.data.isPrefixOf c.hash.data)).length = 1)
    ∧ (rollback st cid).2.commits = st.commits
    ∧ (∀ c, st.commits.filter (fun c2 => cid.data.isPrefixOf c2.hash.data) = [c] →
          (rollback st cid).2.workingTree = c.files)
    ∧ ((rollback st cid).1 = false → (rollback st cid).2 = st)
    ∧ ((rollback st cid).1 = false →
          (rollback_config st cid).1
            = RollbackOutcome.httpError 500 "Rollback failed") := by
  rcases hf : st.commits.filter (fun c => cid.data.isPrefixOf c.hash.data)
    with _ | ⟨c, _ | ⟨c2, tl⟩⟩
  · refine ⟨by simp [rollback, hf], by simp [rollback, hf], ?_, ?_, ?_⟩
    · intro c hc; exact absurd hc (by simp [hf])
    · intro _; simp [rollback, hf]
    · intro _; simp [rollback_config, rollback, hf]
  · refine ⟨by simp [rollback, hf], by simp [rollback, hf], ?_, ?_, ?_⟩
    · intro c1 hc1
      rw [hf] at hc1
      simp only [List.cons.injEq] at hc1
      simp [rollback, hf, hc1.1]
    · intro hfalse; exact absurd hfalse (by simp [rollback, hf])
    · intro hfalse; exact absurd hfalse (by simp [rollback, hf])
  · refine ⟨by simp [rollback, hf], by simp [rollback, hf], ?_, ?_, ?_⟩
    · intro c1 hc1; rw [hf] at hc1; simp at hc1
    · intro _; simp [rollback, hf]
    · intro _; simp [rollback_config, rollback, hf]

/-- Counterexample for C5 as stated: rolling back to the one commit of
`leaf11_state` (identifier "iiiiiii") succeeds but produces NO new record —
the commit list is unchanged at two records — and rolling back to the
nonexistent identifier "zzzzzzz" fails with a generic HTTP 500, not with
NotFound. -/
theorem C5_counterexample :
    (rollback leaf11_state "iiiiiii").1 = true
    ∧ (rollback leaf11_state "iiiiiii").2.commits = leaf11_state.commits
    ∧ leaf11_state.commits.length = 2
    ∧ (rollback leaf11_state "iiiiiii").2.commits.length = 2
    ∧ (rollback_config leaf11_state "zzzzzzz").1
        = RollbackOutcome.httpError 500 "Rollback failed" := by decide

/-- C6 (amended): `get_history` takes the first `limit` commits in
reverse-chronological (parent-chain) order and then keeps those whose commit
MESSAGE contains the device string as a substring — not an exact per-device
filter, and matching commits beyond the first `limit` are never examined;
consequently the result size is at most `limit` and the result is ordered
most-recent-first (a sublist of the reversed commit sequence). -/
theorem C6_history_order_limit_substring (st : GitState)
    (device : Option String) (limit : Nat) :
    get_history st device limit
      = ((st.commits.reverse.take limit).filter (fun c =>
            match device with
            | some d => strContains c.message d
            | none => true)).map Commit.toEntry
    ∧ (get_history st device limit).length ≤ limit
    ∧ (get_history st device limit).Sublist (st.commits.reverse.map Commit.toEntry) := by
  have heq : get_history st device limit
      = ((st.commits.reverse.take limit).filter (fun c =>
            match device with
            | some d => strContains c.message d
            | none => true)).map Commit.toEntry := by
    cases device with
    | none =>
      have h1 : get_history st none limit
          = (st.commits.reverse.take limit).map Commit.toEntry :=
        congrFun (List.filterMap_eq_map Commit.toEntry) _
      rw [h1]
      show (st.commits.reverse.take limit).map Commit.toEntry
          = ((st.commits.reverse.take limit).filter (fun _ => true)).map Commit.toEntry
      rw [List.filter_true]
    | some d =>
      exact filterMap_guard (fun c => strContains c.message d) Commit.toEntry _
  refine ⟨heq, ?_, ?_⟩
  · rw [heq, List.length_map]
    exact le_trans (List.length_filter_le _ _) (List.length_take_le _ _)
  · rw [heq]
    exact List.Sublist.map Commit.toEntry
      (List.Sublist.trans (List.filter_sublist _) (List.take_sublist _ _))

/-- Counterexample for C6 as stated: the store holds no commit for device
"leaf-1", yet `get_history` filtered to "leaf-1" returns the record of the
commit made for device "leaf-11" — the substring filter on the message is not
a filter "to the given device", and the result differs from the spec's
`history_spec`. -/
theorem C6_counterexample :
    leaf11_state.commits.filter (fun c => c.device == "leaf-1") = []
    ∧ get_history leaf11_state (some "leaf-1") 50 ≠ []
    ∧ get_history leaf11_state (some "leaf-1") 50
        ≠ history_spec leaf11_state (some "leaf-1") 50
    ∧ (get_history leaf11_state (some "leaf-1") 50).map (fun e => e.message)
        = ["Configure leaf-11 Eth1/1"] := by decide

/-- C7: configuration synthesis is deterministic and effect-free: the renderer
is a pure function of the request — it performs no I/O and reads no mutable
state — so renderings of equal requests are byte-identical, however many times
it is called. -/
theorem C7_render_deterministic (r1 r2 : PortConfigRequest) (h : r1 = r2) :
    generate_config r1 = generate_config r2
    ∧ (generate_config r1).data = (generate_config r2).data := by
  subst h; exact ⟨rfl, rfl⟩

/-- Witness for C7: two renderings of the section-8 sample request are
byte-identical. -/
theorem C7_render_deterministic_witness :
    generate_config sample_request_access = generate_config sample_request_access
    ∧ (generate_config sample_request_access).data
        = (generate_config sample_request_access).data :=
  C7_render_deterministic sample_request_access sample_request_access rfl

/-- C8: the rendered configuration lists command lines in the fixed order —
interface selector first, then optional description, switchport enable,
mode-specific lines (access: mode + vlan; trunk: mode + allowed-vlan),
optional VXLAN block, optional VRF membership, and administrative enable
last — and on the section-8 access example it renders exactly the expected
text containing `interface Eth1/1`, `switchport mode access`,
`switchport access vlan 10` and `no shutdown`. -/
theorem C8_fixed_order_and_example (request : PortConfigRequest) :
    config_lines request
      = ["interface " ++ request.interface]
          ++ (match request.description with
              | some d => if d.isEmpty then [] else ["  description " ++ d]
              | none => [])
          ++ ["  switchport"]
          ++ (if request.mode == "access" then
                ["  switchport mode access"]
                ++ (match request.vlan with
                    | some v =>
                      if v == 0 then [] else ["  switchport access vlan " ++ toString v]
                    | none => [])
              else if request.mode == "trunk" then
                ["  switchport mode trunk"]
                ++ (match request.vlan with
                    | some v =>
                      if v == 0 then [] else ["  switchport trunk allowed vlan " ++ toString v]
                    | none => [])
              else [])
          ++ (match request.vni with
              | some n => if n == 0 then [] else ["  vxlan", "    vni " ++ toString n]
              | none => [])
          ++ (match request.vrf with
              | some s => if s.isEmpty then [] else ["  vrf member " ++ s]
              | none => [])
          ++ ["  no shutdown"]
    ∧ (config_lines request).head? = some ("interface " ++ request.interface)
    ∧ (config_lines request).getLast? = some "  no shutdown"
    ∧ generate_config sample_request_access
        = "interface Eth1/1\n  description Server Link\n  switchport\n  switchport mode access\n  switchport access vlan 10\n  no shutdown"
    ∧ strContains (generate_config sample_request_access) "interface Eth1/1" = true
    ∧ strContains (generate_config sample_request_access) "switchport mode access" = true
    ∧ strContains (generate_config sample_request_access) "switchport access vlan 10" = true
    ∧ strContains (generate_config sample_request_access) "no shutdown" = true :=
  ⟨rfl, rfl, List.getLast?_concat _, by decide, by decide, by decide, by decide, by decide⟩

/-- C9 (amended): the API boundary performs no value-level validation — every
typed request is accepted, whatever its vlan, vni or mode — and rendering is
total, never failing with ValidationError: an unknown mode silently yields a
configuration with no mode-specific lines, out-of-range numbers are rendered
verbatim, and every rendering ends in administrative enable. -/
theorem C9_boundary_accepts_all_values (request : PortConfigRequest) :
    request_accepted request = true
    ∧ (request.mode ≠ "access" → request.mode ≠ "trunk" →
        config_lines request
          = ["interface " ++ request.interface]
              ++ (match request.description with
                  | some d => if d.isEmpty then [] else ["  description " ++ d]
                  | none => [])
              ++ ["  switchport"]
              ++ (match request.vni with
                  | some n => if n == 0 then [] else ["  vxlan", "    vni " ++ toString n]
                  | none => [])
              ++ (match request.vrf with
                  | some s => if s.isEmpty then [] else ["  vrf member " ++ s]
                  | none => [])
              ++ ["  no shutdown"])
    ∧ (config_lines request).getLast? = some "  no shutdown"
    ∧ generate_config bad_request
        = "interface Eth1/1\n  switchport\n  vxlan\n    vni -3\n  no shutdown" := by
  refine ⟨rfl, ?_, List.getLast?_concat _, by decide⟩
  intro h1 h2
  have b1 : (request.mode == "access") = false := beq_eq_false_iff_ne.mpr h1
  have b2 : (request.mode == "trunk") = false := beq_eq_false_iff_ne.mpr h2
  simp [config_lines, b1, b2]

/-- Counterexample for C9 as stated: `bad_request` has vlan 5000 (outside
1-4094), a mode outside the access/trunk enum and a non-positive vni, yet the
boundary accepts it and rendering succeeds (no ValidationError), producing a
configuration that renders the bad vni verbatim. -/
theorem C9_counterexample :
    request_accepted bad_request = true
    ∧ bad_request.vlan = some 5000
    ∧ ¬((5000 : Int) ≤ 4094)
    ∧ bad_request.mode ≠ "access"
    ∧ bad_request.mode ≠ "trunk"
    ∧ bad_request.vni = some (-3)
    ∧ ¬(0 < (-3 : Int))
    ∧ generate_config bad_request
        = "interface Eth1/1\n  switchport\n  vxlan\n    vni -3\n  no shutdown" := by
  decide

/-- C10: the pre-check returns one fixed constant result for every
(device, interface) pair — port exists, empty learned-MAC list, safe verdict —
independent of its arguments and of any device state; consequently the
configure endpoint as wired in the source passes the safety gate on every
request: the trace always reaches commit-then-apply and the gate's 400
rejection is never produced. -/
theorem C10_precheck_constant_gate_always_passes (device intf : String)
    (H : Nat → String) (st : GitState) (request : PortConfigRequest) (now : Nat) :
    pre_check_port device intf = pre_check_port "leaf-01" "Eth1/1"
    ∧ (pre_check_port device intf).port_exists = true
    ∧ (pre_check_port device intf).mac_addresses = []
    ∧ (pre_check_port device intf).is_safe_to_configure = true
    ∧ (configure_port_endpoint H st request now).2.2
        = [Event.commitEv (commit_config H st request.device request.interface
              (generate_config request) "api_user" now).1,
           Event.applyEv request.device]
    ∧ ∀ d, (configure_port_endpoint H st request now).1
        ≠ ConfigureOutcome.httpError 400 d := by
  refine ⟨rfl, rfl, rfl, rfl, ?_, ?_⟩
  · simp [configure_port_endpoint, configure_port, pre_check_port, apply_config]
  · intro d
    simp [configure_port_endpoint, configure_port, pre_check_port, apply_config]

end NXOS
